import Mathlib

/-!
Verification of the xlora_inference_setup utilities.

The repository holds two Python scripts:

* test.py — the Key Lister: opens a safetensors container, lists the keys
  whose name starts with "inner.", prints a count line and the sorted keys.
* xlora_request.py — the Chat-Completion Requester: builds a JSON body,
  POSTs it to a local chat-completions endpoint, prints the reply or the
  error status and raw body.

The spec additionally documents a Text-Completion Requester variant whose
source file is not present in the repository snapshot; it is modelled from
the spec where needed.

Console output is modelled as a list of printed lines (strings without the
trailing newline).  Exceptions raised by the Python code are modelled with
Except: a normally terminating run is Except.ok, an unhandled exception is
Except.error.
-/

/-- JSON values, as produced by json.dumps / response.json() in the scripts. -/
inductive Json where
  | null : Json
  | bool : Bool → Json
  | num : Int → Json
  | str : String → Json
  | arr : List Json → Json
  | obj : List (String × Json) → Json

/-- Dictionary lookup, d[key]: some value on a hit, none models the KeyError
(or the TypeError when the value is not a dict). -/
def Json.lookup : Json → String → Option Json
  | .obj kvs, key => kvs.lookup key
  | _, _ => none

/-- List indexing, xs[i]: none models the IndexError (or the TypeError when
the value is not a list). -/
def Json.index : Json → Nat → Option Json
  | .arr xs, i => xs.get? i
  | _, _ => none

mutual

/-- Python repr of a JSON-shaped value (used for values nested in
containers when printed). -/
def Json.reprStr : Json → String
  | .null => "None"
  | .bool true => "True"
  | .bool false => "False"
  | .num n => toString n
  | .str s => "'" ++ s ++ "'"
  | .arr xs => "[" ++ Json.reprArr xs ++ "]"
  | .obj kvs => "\x7b" ++ Json.reprObj kvs ++ "\x7d"

/-- Comma-separated reprs of the elements of a list value. -/
def Json.reprArr : List Json → String
  | [] => ""
  | [x] => Json.reprStr x
  | x :: xs => Json.reprStr x ++ ", " ++ Json.reprArr xs

/-- Comma-separated key: value reprs of the entries of a dict value. -/
def Json.reprObj : List (String × Json) → String
  | [] => ""
  | [(k, v)] => "'" ++ k ++ "': " ++ Json.reprStr v
  | (k, v) :: kvs => "'" ++ k ++ "': " ++ Json.reprStr v ++ ", " ++ Json.reprObj kvs

end

/-- What Python print writes for a value: a string prints verbatim, any
other value prints as its repr. -/
def Json.printStr : Json → String
  | .str s => s
  | .null => Json.reprStr .null
  | .bool b => Json.reprStr (.bool b)
  | .num n => Json.reprStr (.num n)
  | .arr xs => Json.reprStr (.arr xs)
  | .obj kvs => Json.reprStr (.obj kvs)

/-! ## Key Lister (test.py) -/

/-- The hard-coded container path in test.py. -/
def classifier_path : String :=
  "/data/joel/results_language_adapters/xlora/mistral7b/jav_Latn_sun_Latn_swh_Latn_sna_Latn_nya_Latn/checkpoint-1000/xlora_classifier.safetensors"

/-- Python s.startswith(p): p's code points are an initial segment of s's. -/
def pyStartsWith (s p : String) : Bool :=
  p.data.isPrefixOf s.data

/-- Lexicographic comparison of code-point sequences, as Python compares
strings: the first differing position decides, a proper initial segment
comes first. -/
def charListLe : List Char → List Char → Bool
  | [], _ => true
  | _ :: _, [] => false
  | a :: as, b :: bs =>
    if a.toNat < b.toNat then true
    else if b.toNat < a.toNat then false
    else charListLe as bs

/-- Python string comparison a <= b, by code points. -/
def pyStrLe (a b : String) : Bool :=
  charListLe a.data b.data

/-- The order Python sorted sorts strings by. -/
def pyLe (a b : String) : Prop :=
  pyStrLe a b = true

instance : DecidableRel pyLe := fun a b => by
  unfold pyLe; infer_instance

/-- Python sorted on a list of strings: sorted lexicographically by code
points (insertion sort is one correct, stable realization). -/
def pySorted (xs : List String) : List String :=
  List.insertionSort pyLe xs

/-- inner_keys = [k for k in keys if k.startswith("inner.")] -/
def inner_keys (keys : List String) : List String :=
  keys.filter (fun k => pyStartsWith k "inner.")

/-- The printed lines of test.py, as a function of the container's key set:
the count line (an f-string over len(inner_keys)) followed by one line per
key of sorted(inner_keys); print("  ", k) joins its arguments with a
space, so each key line is three spaces then the key. -/
def keyLister (keys : List String) : List String :=
  let inner := inner_keys keys
  ("Found " ++ toString inner.length ++ " classifier layer keys:") ::
    (pySorted inner).map (fun k => "   " ++ k)

/-- Resource events of the container handle. -/
inductive Event where
  | acquire : Event
  | release : Event
deriving DecidableEq

/-- A weights container as the Key Lister sees it: list(f.keys()) either
returns the key names or raises partway through enumeration. -/
structure Container where
  keysResult : Except String (List String)

/-- Python with-statement over safe_open: the handle is acquired, the body
runs, and the handle is released on both the normal and the exceptional
exit of the block; an exception is re-raised after the release. -/
def withResource {α : Type} (body : Unit → Except String α) :
    List Event × Except String α :=
  match body () with
  | .ok a => ([Event.acquire, Event.release], .ok a)
  | .error e => ([Event.acquire, Event.release], .error e)

/-- The whole of test.py over a container: keys are read inside the with
block, the printing happens after it. -/
def runKeyLister (c : Container) : List Event × Except String (List String) :=
  let (evs, r) := withResource (fun _ => c.keysResult)
  (evs, r.map keyLister)

/-! ## Chat-Completion Requester (xlora_request.py) -/

/-- An HTTP request as requests.post receives it: URL, headers, and the
JSON value serialized into the body by json.dumps. -/
structure HttpRequest where
  url : String
  headers : List (String × String)
  data : Json

/-- An HTTP response as the script consumes it: response.status_code,
response.text (the raw body), and the result of response.json() — some
parsed value, or none when the body is not valid JSON and the call raises. -/
structure HttpResponse where
  status_code : Nat
  text : String
  jsonBody : Option Json

/-- Unhandled Python exceptions the requester can die with. -/
inductive PyError where
  | lookupError : PyError
  | jsonDecodeError : PyError
deriving DecidableEq

/-- The chat-completions URL hard-coded in query_xlora. -/
def chat_url : String := "http://localhost:1234/v1/chat/completions"

/-- The default of the max_tokens parameter of query_xlora. -/
def chat_default_max_tokens : Int := 50

/-- The request query_xlora builds: the fixed URL, the Content-Type header,
and the body dict with model, messages and max_tokens. -/
def buildChatRequest (prompt : String) (max_tokens : Int) : HttpRequest :=
  { url := chat_url
    headers := [("Content-Type", "application/json")]
    data := Json.obj
      [ ("model", Json.str "default")
      , ("messages", Json.arr
          [Json.obj [("role", Json.str "user"), ("content", Json.str prompt)]])
      , ("max_tokens", Json.num max_tokens) ] }

/-- result["choices"][0]["message"]["content"]: none models the unhandled
KeyError / IndexError / TypeError raised when the path is absent. -/
def extractChatContent (result : Json) : Option Json := do
  let choices ← result.lookup "choices"
  let first ← choices.index 0
  let message ← first.lookup "message"
  message.lookup "content"

/-- The branch of query_xlora on the response: on status 200 parse the body
and print the banner (print of a string ending in a newline yields the
banner line and a blank line) then the content; on any other status print
the status-code line and the raw body; extraction and JSON-decoding
failures propagate as unhandled exceptions. -/
def handleChatResponse (response : HttpResponse) : Except PyError (List String) :=
  if response.status_code = 200 then
    match response.jsonBody with
    | none => .error .jsonDecodeError
    | some result =>
      match extractChatContent result with
      | none => .error .lookupError
      | some content => .ok ["Model response:", "", Json.printStr content]
  else
    .ok [ "Request failed with status code " ++ toString response.status_code
        , response.text ]

/-- query_xlora over an abstract server (the function from the POSTed
request to the response): build the request, send it, handle the response. -/
def query_xlora (prompt : String) (max_tokens : Int)
    (server : HttpRequest → HttpResponse) : Except PyError (List String) :=
  handleChatResponse (server (buildChatRequest prompt max_tokens))

/-- One invocation of query_xlora with an explicit ambient process state:
the function body touches no module-level or otherwise persistent state, so
the state passes through unchanged. -/
def queryXloraStep {σ : Type} (prompt : String) (max_tokens : Int)
    (server : HttpRequest → HttpResponse) (s : σ) :
    Except PyError (List String) × σ :=
  (query_xlora prompt max_tokens server, s)

/-! ## Text-Completion Requester (modelled from the spec) -/

/-- Modelled from the spec: the Text-Completion Requester script is absent
from the repository snapshot.  Per the spec it POSTs to the plain
completions path on the same local host and port. -/
def completions_url : String := "http://localhost:1234/v1/completions"

/-- Modelled from the spec: the text requester's default max_tokens is 500. -/
def text_default_max_tokens : Int := 500

/-- Modelled from the spec: the text form's body is the dict with model,
prompt and max_tokens — the prompt is a raw string, no message wrapping —
sent with the same Content-Type header. -/
def buildTextRequest (prompt : String) (max_tokens : Int) : HttpRequest :=
  { url := completions_url
    headers := [("Content-Type", "application/json")]
    data := Json.obj
      [ ("model", Json.str "default")
      , ("prompt", Json.str prompt)
      , ("max_tokens", Json.num max_tokens) ] }

/-- Modelled from the spec: response.ok of the client library, true exactly
for the 2xx statuses. -/
def HttpResponse.isOk (r : HttpResponse) : Bool :=
  decide (200 ≤ r.status_code ∧ r.status_code < 300)

/-- Modelled from the spec: the text form's success path reads
result["choices"][0]["text"]. -/
def extractTextContent (result : Json) : Option Json := do
  let choices ← result.lookup "choices"
  let first ← choices.index 0
  first.lookup "text"

/-- Modelled from the spec: on a response the client classifies as ok,
parse the body and print choices[0].text exactly; on any other status print
the status-code line and the raw body, as the chat form does. -/
def handleTextResponse (response : HttpResponse) : Except PyError (List String) :=
  if response.isOk then
    match response.jsonBody with
    | none => .error .jsonDecodeError
    | some result =>
      match extractTextContent result with
      | none => .error .lookupError
      | some content => .ok [Json.printStr content]
  else
    .ok [ "Request failed with status code " ++ toString response.status_code
        , response.text ]

/-- Modelled from the spec: the text requester, same shape as query_xlora
with the text-form request and response handling. -/
def query_text (prompt : String) (max_tokens : Int)
    (server : HttpRequest → HttpResponse) : Except PyError (List String) :=
  handleTextResponse (server (buildTextRequest prompt max_tokens))

/-! ## Order lemmas for the code-point comparison -/

theorem charListLe_total : ∀ as bs : List Char,
    charListLe as bs = true ∨ charListLe bs as = true := by
  intro as
  induction as with
  | nil => intro bs; left; rfl
  | cons a as ih =>
    intro bs
    cases bs with
    | nil => right; rfl
    | cons b bs =>
      simp only [charListLe]
      rcases Nat.lt_trichotomy a.toNat b.toNat with h | h | h
      · left; simp [h]
      · have h1 : ¬ a.toNat < b.toNat := by omega
        have h2 : ¬ b.toNat < a.toNat := by omega
        rcases ih bs with hh | hh
        · left; simp [h1, h2, hh]
        · right; simp [h1, h2, hh]
      · right; simp [h]

theorem charListLe_trans : ∀ as bs cs : List Char,
    charListLe as bs = true → charListLe bs cs = true →
    charListLe as cs = true := by
  intro as
  induction as with
  | nil => intro bs cs _ _; rfl
  | cons a as ih =>
    intro bs cs h1 h2
    cases bs with
    | nil => simp [charListLe] at h1
    | cons b bs =>
      cases cs with
      | nil => simp [charListLe] at h2
      | cons c cs =>
        simp only [charListLe] at h1 h2 ⊢
        by_cases hab : a.toNat < b.toNat <;>
          by_cases hba : b.toNat < a.toNat <;>
          by_cases hbc : b.toNat < c.toNat <;>
          by_cases hcb : c.toNat < b.toNat <;>
          simp [hab, hba, hbc, hcb] at h1 h2 ⊢ <;>
          first
          | omega
          | (have h3 : ¬ a.toNat < c.toNat := by omega
             have h4 : ¬ c.toNat < a.toNat := by omega
             simp [h3, h4]
             exact ⟨by omega, ih bs cs h1 h2⟩)

instance : IsTotal String pyLe :=
  ⟨fun a b => charListLe_total a.data b.data⟩

instance : IsTrans String pyLe :=
  ⟨fun a b c => charListLe_trans a.data b.data c.data⟩

theorem pySorted_sorted (xs : List String) : List.Sorted pyLe (pySorted xs) :=
  List.sorted_insertionSort pyLe xs

theorem pySorted_perm (xs : List String) : List.Perm (pySorted xs) xs :=
  List.perm_insertionSort pyLe xs

/-! ## Claim theorems -/

/-- C1: for every set of key names, the Key Lister prints a count line
reporting the number of keys carrying the prefix "inner.", followed by
exactly those keys, each indented, sorted lexicographically; keys without
the prefix are excluded; on the spec's three-key example it reports count 2
and lists inner.0.w before inner.1.w, and on an empty container it prints
count 0 and no key lines. -/
theorem C1_keyLister_output :
    (∀ keys : List String,
      keyLister keys =
        ("Found " ++ toString (pySorted (inner_keys keys)).length ++
            " classifier layer keys:") ::
          (pySorted (inner_keys keys)).map (fun k => "   " ++ k) ∧
      List.Sorted pyLe (pySorted (inner_keys keys)) ∧
      (∀ k, k ∈ pySorted (inner_keys keys) ↔
        k ∈ keys ∧ pyStartsWith k "inner." = true)) ∧
    keyLister ["inner.0.w", "outer.x", "inner.1.w"] =
      ["Found 2 classifier layer keys:", "   inner.0.w", "   inner.1.w"] ∧
    keyLister [] = ["Found 0 classifier layer keys:"] := by
  refine ⟨fun keys => ⟨?_, pySorted_sorted _, ?_⟩, by decide, by decide⟩
  · unfold keyLister
    rw [(pySorted_perm (inner_keys keys)).length_eq]
  · intro k
    rw [(pySorted_perm (inner_keys keys)).mem_iff]
    simp [inner_keys, List.mem_filter]

/-- C9: the count the Key Lister reports in its first line is the length of
the list of indented key lines that follow it — both derive from the same
filtered list. -/
theorem C9_count_matches_lines (keys : List String) :
    (keyLister keys).head? =
      some ("Found " ++ toString (keyLister keys).tail.length ++
        " classifier layer keys:") := by
  simp only [keyLister, List.head?, List.tail, List.length_map,
    (pySorted_perm (inner_keys keys)).length_eq]

/-- C6: the Key Lister acquires the container handle in a scoped fashion
and the release event occurs on every execution path — also when key
enumeration raises partway, in which case the exception still propagates
after the release. -/
theorem C6_handle_released (c : Container) :
    (runKeyLister c).1 = [Event.acquire, Event.release] ∧
    (runKeyLister c).2 = c.keysResult.map keyLister := by
  cases h : c.keysResult <;>
    simp [runKeyLister, withResource, h, Except.map]

/-- C2: whenever the chat-completions POST returns status 200 with a JSON
body from which choices[0].message.content is extractable, query_xlora
prints that value preceded by the fixed banner (the banner line and the
blank line its trailing newline produces) and nothing else. -/
theorem C2_chat_success (prompt : String) (max_tokens : Int)
    (server : HttpRequest → HttpResponse) (result v : Json)
    (h200 : (server (buildChatRequest prompt max_tokens)).status_code = 200)
    (hjson : (server (buildChatRequest prompt max_tokens)).jsonBody = some result)
    (hv : extractChatContent result = some v) :
    query_xlora prompt max_tokens server =
      .ok ["Model response:", "", Json.printStr v] := by
  simp [query_xlora, handleChatResponse, h200, hjson, hv]

/-- Witness for C2: a mocked endpoint returning status 200 with body
containing choices[0].message.content = "42" makes the requester print the
banner then 42. -/
theorem C2_chat_success_witness :
    query_xlora "Do you knwo xlora?" 50
      (fun _ =>
        { status_code := 200
          text := "irrelevant"
          jsonBody := some (Json.obj [("choices", Json.arr [Json.obj
            [("message", Json.obj [("content", Json.str "42")])]])]) }) =
      .ok ["Model response:", "", "42"] :=
  C2_chat_success "Do you knwo xlora?" 50 _
    (Json.obj [("choices", Json.arr [Json.obj
      [("message", Json.obj [("content", Json.str "42")])]])])
    (Json.str "42") rfl rfl rfl

/-- C3: on any response status other than 200 the requester prints the
numeric status code and then the raw response body unmodified, raises
nothing, and the run ends normally (Except.ok). -/
theorem C3_chat_failure (prompt : String) (max_tokens : Int)
    (server : HttpRequest → HttpResponse)
    (h : (server (buildChatRequest prompt max_tokens)).status_code ≠ 200) :
    query_xlora prompt max_tokens server =
      .ok [ "Request failed with status code " ++
              toString (server (buildChatRequest prompt max_tokens)).status_code
          , (server (buildChatRequest prompt max_tokens)).text ] := by
  simp [query_xlora, handleChatResponse, h]

/-- Witness for C3: a mocked endpoint answering 500 with body server error
makes the requester print the 500 line and the body, with a normal exit. -/
theorem C3_chat_failure_witness :
    query_xlora "Do you knwo xlora?" 50
      (fun _ => { status_code := 500, text := "server error", jsonBody := none }) =
      .ok ["Request failed with status code 500", "server error"] :=
  C3_chat_failure "Do you knwo xlora?" 50
    (fun _ => { status_code := 500, text := "server error", jsonBody := none })
    (by decide)

/-- C4: for every prompt and max_tokens the chat request is exactly the
fixed URL, the Content-Type application/json header, and the body with
model default, a single user message carrying the prompt, and max_tokens;
in particular the messages field is a one-element array whose message has
role user. -/
theorem C4_chat_request_shape (prompt : String) (max_tokens : Int) :
    buildChatRequest prompt max_tokens =
      { url := "http://localhost:1234/v1/chat/completions"
        headers := [("Content-Type", "application/json")]
        data := Json.obj
          [ ("model", Json.str "default")
          , ("messages", Json.arr
              [Json.obj [("role", Json.str "user"), ("content", Json.str prompt)]])
          , ("max_tokens", Json.num max_tokens) ] } ∧
    (∃ msg : Json,
      (buildChatRequest prompt max_tokens).data.lookup "messages" =
        some (Json.arr [msg]) ∧
      msg.lookup "role" = some (Json.str "user") ∧
      msg.lookup "content" = some (Json.str prompt)) :=
  ⟨rfl, ⟨Json.obj [("role", Json.str "user"), ("content", Json.str prompt)],
    rfl, rfl, rfl⟩⟩

/-- C7: on a 200 response whose JSON body lacks the field path
choices[0].message.content, the extraction is unhandled and the run dies
with a fatal lookup failure — no catch, no fallback output. -/
theorem C7_missing_field_fatal (resp : HttpResponse) (result : Json)
    (h200 : resp.status_code = 200) (hj : resp.jsonBody = some result)
    (hmiss : extractChatContent result = none) :
    handleChatResponse resp = .error PyError.lookupError := by
  simp [handleChatResponse, h200, hj, hmiss]

/-- Witness for C7: a 200 response with empty-object body has no choices
field, and the handler propagates the lookup failure. -/
theorem C7_missing_field_fatal_witness :
    handleChatResponse
      { status_code := 200, text := "\x7b\x7d", jsonBody := some (Json.obj []) } =
      .error PyError.lookupError :=
  C7_missing_field_fatal
    { status_code := 200, text := "\x7b\x7d", jsonBody := some (Json.obj []) }
    (Json.obj []) rfl rfl rfl

/-- C8: with the ambient process state made explicit, one invocation of the
requester leaves the state unchanged, so a second invocation with the same
inputs against the same deterministic server produces identical printed
output. -/
theorem C8_requester_stateless {σ : Type} (prompt : String) (max_tokens : Int)
    (server : HttpRequest → HttpResponse) (s : σ) :
    (queryXloraStep prompt max_tokens server s).1 =
      (queryXloraStep prompt max_tokens server
        ((queryXloraStep prompt max_tokens server s).2)).1 ∧
    (queryXloraStep prompt max_tokens server s).2 = s :=
  ⟨rfl, rfl⟩

/-- C10: the requester enforces no precondition on its inputs: for every
prompt, the empty string included, and every integer max_tokens, zero and
negative values included, the request is built with the one fixed shape and
handed to the server, and the outcome is whatever the response handling
yields — no locally raised validation error. -/
theorem C10_no_input_validation (prompt : String) (max_tokens : Int)
    (server : HttpRequest → HttpResponse) :
    query_xlora prompt max_tokens server =
      handleChatResponse (server (buildChatRequest prompt max_tokens)) ∧
    buildChatRequest prompt max_tokens =
      { url := chat_url
        headers := [("Content-Type", "application/json")]
        data := Json.obj
          [ ("model", Json.str "default")
          , ("messages", Json.arr
              [Json.obj [("role", Json.str "user"), ("content", Json.str prompt)]])
          , ("max_tokens", Json.num max_tokens) ] } :=
  ⟨rfl, rfl⟩

/-- C5: the Text-Completion Requester (modelled from the spec) builds the
body with model, raw prompt and max_tokens — no message wrapping — POSTs it
to the plain completions endpoint, has default max_tokens 500, and on a
successful response prints choices[0].text exactly. -/
theorem C5_text_requester (prompt : String) (max_tokens : Int)
    (server : HttpRequest → HttpResponse) (result v : Json)
    (hok : (server (buildTextRequest prompt max_tokens)).isOk = true)
    (hj : (server (buildTextRequest prompt max_tokens)).jsonBody = some result)
    (hv : extractTextContent result = some v) :
    (buildTextRequest prompt max_tokens).url = "http://localhost:1234/v1/completions" ∧
    (buildTextRequest prompt max_tokens).data =
      Json.obj
        [ ("model", Json.str "default")
        , ("prompt", Json.str prompt)
        , ("max_tokens", Json.num max_tokens) ] ∧
    (buildTextRequest prompt max_tokens).data.lookup "messages" = none ∧
    text_default_max_tokens = 500 ∧
    query_text prompt max_tokens server = .ok [Json.printStr v] := by
  refine ⟨rfl, rfl, rfl, rfl, ?_⟩
  simp [query_text, handleTextResponse, hok, hj, hv]

/-- Witness for C5: a mocked endpoint returning status 200 and body with
choices[0].text = "hello" makes the text requester print hello exactly. -/
theorem C5_text_requester_witness :
    query_text "a prompt" 500
      (fun _ =>
        { status_code := 200
          text := "irrelevant"
          jsonBody := some (Json.obj [("choices", Json.arr
            [Json.obj [("text", Json.str "hello")]])]) }) =
      .ok ["hello"] :=
  (C5_text_requester "a prompt" 500
    (fun _ =>
      { status_code := 200
        text := "irrelevant"
        jsonBody := some (Json.obj [("choices", Json.arr
          [Json.obj [("text", Json.str "hello")]])]) })
    (Json.obj [("choices", Json.arr [Json.obj [("text", Json.str "hello")]])])
    (Json.str "hello") rfl rfl rfl).2.2.2.2
